import Mathlib

/-!
Verification of the `go-transmission` client library.

The Go source (`status.go`, two files concatenated) is embedded shallowly:

* machine integers become `Int` / `Nat` (no arithmetic overflow occurs in the
  embedded code paths), Go `float32`/`float64` fields become `Rat`,
  Go strings become `String`, slices become `List`;
* the JSON codec and the HTTP transport are external collaborators; they are
  abstracted as an `Env` record of fallible functions, so that every failure
  point of the Go code (`json.Marshal`, `ApiClient.Post`, `json.Unmarshal`)
  is visible as an `Except` value;
* Go functions returning `(value, error)` pairs become functions returning
  `value × Option GoError`; additionally every client operation returns the
  list of `Command` values it handed to the transport, so that "operation X
  did not send command Y" is expressible;
* the concrete wire shape produced by `encoding/json` for the `Command`
  struct (including the per-field `omitempty` behaviour of the Go struct
  tags) is modelled by `marshalCommand` / `marshalArguments`;
* the sort comparators (`Sorting`, `Torrents.SortID`, ...) and the
  session-handshake transport (`ApiClient`, `Post`) live in repository files
  that are not part of the given sources; they are modelled from the spec,
  as marked by their doc comments.
-/

/-! ## Status (from the first source file) -/

/-- Go `type Status int`. -/
abbrev Status := Int

def TrStopped : Status := 0
def TrCheckPending : Status := 1
def TrChecking : Status := 2
def TrDownloadPending : Status := 3
def TrDownloading : Status := 4
def TrSeedPending : Status := 5
def TrSeeding : Status := 6

/-- Go `func (ts Status) String() string`: the `switch` over the seven
constants with default `"unknown"`. (The binder is written `Int`, which is
what the `Status` abbreviation unfolds to, so that arithmetic automation
sees through it.) -/
def statusString (ts : Int) : String :=
  if ts = TrStopped then "Stopped"
  else if ts = TrCheckPending then "Check waiting"
  else if ts = TrChecking then "Checking"
  else if ts = TrDownloadPending then "Download waiting"
  else if ts = TrDownloading then "Downloading"
  else if ts = TrSeedPending then "Seed waiting"
  else if ts = TrSeeding then "Seeding"
  else "unknown"

/-- Go `func (ts Status) IsStarted() bool`. -/
def Status.IsStarted (ts : Int) : Bool :=
  ts = TrChecking ||
    ts = TrDownloadPending ||
    ts = TrDownloading ||
    ts = TrSeedPending ||
    ts = TrSeeding

/-! ## Data model (second source file) -/

/-- Go `type TorrentAdded struct`. -/
structure TorrentAdded where
  HashString : String
  ID : Int
  Name : String
deriving DecidableEq

/-- The zero value of `TorrentAdded` (Go `TorrentAdded{}`). -/
def TorrentAdded.zero : TorrentAdded := ⟨"", 0, ""⟩

/-- Go `type peer struct`. -/
structure peer where
  Address : String
  Name : String
  Port : Int
  RateToPeer : Int
  RateToClient : Int
  Progress : Rat
  Flags : String
  IsEncrypted : Bool
  IsUTP : Bool
  IsUploadingTo : Bool
  IsIncoming : Bool
  IsDownloadingFrom : Bool
  PeerIsInterested : Bool
  PeerIsChoked : Bool
  ClientIsInterested : Bool
  ClientIsChoked : Bool
deriving DecidableEq

/-- Go `type tracker struct`. -/
structure tracker where
  Announce : String
  Id : Int
  Scrape : String
  Tire : Int
deriving DecidableEq

/-- Go `type trackerStat struct`. -/
structure trackerStat where
  Announce : String
  AnnounceState : Int
  DownloadCount : Int
  HasAnnounced : Bool
  HasScraped : Bool
  Host : String
  ID : Nat
  IsBackup : Bool
  LastAnnouncePeerCount : Int
  LastAnnounceResult : String
  LastAnnounceStartTime : Int
  LastAnnounceSucceeded : Bool
  LastAnnounceTime : Int
  LastAnnounceTimedOut : Bool
  LastScrapeResult : String
  LastScrapeStartTime : Int
  LastScrapeSucceeded : Bool
  LastScrapeTime : Int
  LastScrapeTimedOut : Int
  LeecherCount : Int
  NextAnnounceTime : Int
  NextScrapeTime : Int
  Scrape : String
  ScrapeState : Int
  SeederCount : Int
  Tier : Int
deriving DecidableEq

/-- Go `type File struct`. -/
structure File where
  Completed : Int
  Size : Int
  Name : String
deriving DecidableEq

/-- Go `type cumulativeStats struct`. -/
structure cumulativeStats where
  DownloadedBytes : Nat
  FilesAdded : Int
  SecondsActive : Int
  SessionCount : Int
  UploadedBytes : Nat
deriving DecidableEq

def cumulativeStats.zero : cumulativeStats := ⟨0, 0, 0, 0, 0⟩

/-- Go `type currentStats struct`. -/
structure currentStats where
  DownloadedBytes : Nat
  FilesAdded : Int
  SecondsActive : Int
  SessionCount : Int
  UploadedBytes : Nat
deriving DecidableEq

def currentStats.zero : currentStats := ⟨0, 0, 0, 0, 0⟩

/-- Go `type Stats struct` (session-stats result). -/
structure Stats where
  ActiveTorrentCount : Int
  CumulativeStats : cumulativeStats
  CurrentStats : currentStats
  DownloadSpeed : Nat
  PausedTorrentCount : Int
  TorrentCount : Int
  UploadSpeed : Nat
deriving DecidableEq

/-- Go `type Torrent struct`, all thirty fields in declaration order. -/
structure Torrent where
  ID : Int
  Name : String
  Status : Status
  AddedDate : Int
  StartDate : Int
  DoneDate : Int
  LeftUntilDone : Nat
  SizeWhenDone : Nat
  Eta : Int
  UploadRatio : Rat
  RateDownload : Nat
  RateUpload : Nat
  DownloadDir : String
  DownloadedEver : Nat
  UploadedEver : Nat
  HaveUnchecked : Nat
  HaveValid : Nat
  IsFinished : Bool
  PercentDone : Rat
  SeedRatioMode : Int
  Files : List File
  Peers : List peer
  Trackers : List tracker
  TrackerStats : List trackerStat
  Error : Int
  ErrorString : String
  InfoHash : String
  TotalSize : Nat
  DownloadSeconds : Nat
  SeedSeconds : Nat
deriving DecidableEq

/-- The zero value of `Torrent` (Go `Torrent{}`). -/
def Torrent.zero : Torrent :=
  ⟨0, "", 0, 0, 0, 0, 0, 0, 0, 0, 0, 0, "", 0, 0, 0, 0, false, 0, 0,
   [], [], [], [], 0, "", "", 0, 0, 0⟩

/-- Go `type arguments struct`: the single argument bag shared by every RPC
method, fields in declaration order. -/
structure arguments where
  Fields : List String
  Torrents : List Torrent
  Ids : List String
  DeleteData : Bool
  DownloadDir : String
  MetaInfo : String
  Filename : String
  -- Go fields `TorrentAdded` / `TorrentDuplicate`; the first is lowercased
  -- here because a Lean field may not share the name of its own type.
  torrentAdded : TorrentAdded
  torrentDuplicate : TorrentAdded
  ActiveTorrentCount : Int
  CumulativeStats : cumulativeStats
  CurrentStats : currentStats
  DownloadSpeed : Nat
  PausedTorrentCount : Int
  TorrentCount : Int
  UploadSpeed : Nat
  Version : String
deriving DecidableEq

/-- The zero value of `arguments`. -/
def arguments.zero : arguments :=
  ⟨[], [], [], false, "", "", "", TorrentAdded.zero, TorrentAdded.zero,
   0, cumulativeStats.zero, currentStats.zero, 0, 0, 0, 0, ""⟩

/-- Go `type Command struct`: the request/response envelope. -/
structure Command where
  Method : String
  Arguments : arguments
  Result : String
deriving DecidableEq

/-- The zero value of `Command` (Go `Command{}` / `&Command{}`). -/
def Command.zero : Command := ⟨"", arguments.zero, ""⟩

/-- Go `error` values reaching this library: the single sentinel
`ErrNoTorrent` the library creates itself, and opaque errors produced by the
collaborators (transport, JSON codec, file reading). -/
inductive GoError where
  | noTorrent
  | msg (s : String)
deriving DecidableEq

/-- Go `var ErrNoTorrent = errors.New("No torrent with that id")`. -/
def ErrNoTorrent : GoError := GoError.noTorrent

/-! ## The RPC pipeline

`ExecuteCommand` / `sendCommand` run `json.Marshal`, `ApiClient.Post` and
`json.Unmarshal` in sequence.  Those three collaborators are abstracted as an
`Env`; each client operation additionally reports the list of `Command`
values that actually reached the transport (empty when marshalling failed),
so that claims about commands *not* being sent are expressible. -/

/-- The external collaborators of the client: the JSON codec and
`ApiClient.Post`, each allowed to fail with an arbitrary error. -/
structure Env where
  marshal : Command → Except GoError String
  post : String → Except GoError String
  unmarshal : String → Except GoError Command

/-- Go `func (ac *TransmissionClient) ExecuteCommand(cmd *Command) (*Command, error)`:
marshal, post, unmarshal; on any failure return the zero `&Command{}` and the
error.  The second component records the commands handed to the transport. -/
def ExecuteCommand (env : Env) (cmd : Command) :
    (Command × Option GoError) × List Command :=
  match env.marshal cmd with
  | .error e => ((Command.zero, some e), [])
  | .ok body =>
    match env.post body with
    | .error e => ((Command.zero, some e), [cmd])
    | .ok output =>
      match env.unmarshal output with
      | .error e => ((Command.zero, some e), [cmd])
      | .ok out => ((out, none), [cmd])

/-- Go `func (ac *TransmissionClient) sendCommand(cmd Command) (response Command, err error)`:
the same marshal/post/unmarshal pipeline over a by-value `Command`. -/
def sendCommand (env : Env) (cmd : Command) :
    (Command × Option GoError) × List Command :=
  match env.marshal cmd with
  | .error e => ((Command.zero, some e), [])
  | .ok body =>
    match env.post body with
    | .error e => ((Command.zero, some e), [cmd])
    | .ok output =>
      match env.unmarshal output with
      | .error e => ((Command.zero, some e), [cmd])
      | .ok out => ((out, none), [cmd])

/-! ## Command constructors (from the source) -/

/-- Go `func NewGetTorrentsCmd() *Command`: method `"torrent-get"` with the
fixed field list. -/
def NewGetTorrentsCmd : Command :=
  { Command.zero with
    Method := "torrent-get"
    Arguments := { arguments.zero with
      Fields := ["id", "name", "hashString", "status", "addedDate", "startDate",
        "doneDate", "leftUntilDone", "sizeWhenDone", "haveValid", "haveUnchecked",
        "isFinished", "percentDone", "eta", "rateDownload", "rateUpload",
        "downloadDir", "downloadedEver", "uploadRatio", "uploadedEver",
        "seedRatioMode", "error", "errorString", "files", "peers", "trackers",
        "trackerStats", "totalSize", "secondsDownloading", "secondsSeeding"] } }

/-- Go `func NewAddCmd() *Command`. -/
def NewAddCmd : Command := { Command.zero with Method := "torrent-add" }

/-- Go `func NewAddCmdByURL(url string) *Command` (URL or magnet). -/
def NewAddCmdByURL (url : String) : Command :=
  { NewAddCmd with Arguments := { NewAddCmd.Arguments with Filename := url } }

/-- Go `func NewAddCmdByFilename(filename string) *Command`. -/
def NewAddCmdByFilename (filename : String) : Command :=
  { NewAddCmd with Arguments := { NewAddCmd.Arguments with Filename := filename } }

/-- Go `func newDelCmd(id string, removeFile bool) *Command`. -/
def newDelCmd (id : String) (removeFile : Bool) : Command :=
  { Command.zero with
    Method := "torrent-remove"
    Arguments := { arguments.zero with Ids := [id], DeleteData := removeFile } }

/-! ## Client operations (from the source) -/

/-- The command `GetTorrent` builds: `NewGetTorrentsCmd()` with the single
id appended to its (empty) `Ids`. -/
def getTorrentCmd (id : String) : Command :=
  { NewGetTorrentsCmd with
    Arguments := { NewGetTorrentsCmd.Arguments with
      Ids := NewGetTorrentsCmd.Arguments.Ids ++ [id] } }

/-- Go `func (ac *TransmissionClient) GetTorrent(id string) (*Torrent, error)`:
on pipeline failure returns `&Torrent{}` and the error; on an empty result
list returns `&Torrent{}` and `ErrNoTorrent`; otherwise the first torrent. -/
def GetTorrent (env : Env) (id : String) :
    (Torrent × Option GoError) × List Command :=
  match ExecuteCommand env (getTorrentCmd id) with
  | ((_, some e), lg) => ((Torrent.zero, some e), lg)
  | ((out, none), lg) =>
    match out.Arguments.Torrents with
    | [] => ((Torrent.zero, some ErrNoTorrent), lg)
    | t :: _ => ((t, none), lg)

/-- Go `func (ac *TransmissionClient) DeleteTorrent(id string, withData bool) (string, error)`:
look the torrent up first (for its name), then send `torrent-remove`. -/
def DeleteTorrent (env : Env) (id : String) (withData : Bool) :
    (String × Option GoError) × List Command :=
  match GetTorrent env id with
  | ((_, some e), lg) => (("", some e), lg)
  | ((torrent, none), lg) =>
    match ExecuteCommand env (newDelCmd id withData) with
    | ((_, some e), lg2) => (("", some e), lg ++ lg2)
    | ((_, none), lg2) => ((torrent.Name, none), lg ++ lg2)

/-- Go `func (ac *TransmissionClient) GetStats() (*Stats, error)`. -/
def GetStats (env : Env) : (Option Stats × Option GoError) × List Command :=
  match ExecuteCommand env { Command.zero with Method := "session-stats" } with
  | ((_, some e), lg) => ((none, some e), lg)
  | ((out, none), lg) =>
    ((some
      { ActiveTorrentCount := out.Arguments.ActiveTorrentCount
        CumulativeStats := out.Arguments.CumulativeStats
        CurrentStats := out.Arguments.CurrentStats
        DownloadSpeed := out.Arguments.DownloadSpeed
        PausedTorrentCount := out.Arguments.PausedTorrentCount
        TorrentCount := out.Arguments.TorrentCount
        UploadSpeed := out.Arguments.UploadSpeed }, none), lg)

/-- Go `func (ac *TransmissionClient) sendSimpleCommand(method string, ids ...string)`:
returns `resp.Result` together with the error from `sendCommand`. -/
def sendSimpleCommand (env : Env) (method : String) (ids : List String) :
    (String × Option GoError) × List Command :=
  match sendCommand env
      { Command.zero with
        Method := method
        Arguments := { arguments.zero with Ids := ids } } with
  | ((resp, err), lg) => ((resp.Result, err), lg)

/-- Go `StartTorrent`. -/
def StartTorrent (env : Env) (ids : List String) :
    (String × Option GoError) × List Command :=
  sendSimpleCommand env "torrent-start" ids

/-- Go `StopTorrent`. -/
def StopTorrent (env : Env) (ids : List String) :
    (String × Option GoError) × List Command :=
  sendSimpleCommand env "torrent-stop" ids

/-- Go `VerifyTorrent`. -/
def VerifyTorrent (env : Env) (ids : List String) :
    (String × Option GoError) × List Command :=
  sendSimpleCommand env "torrent-verify" ids

/-- Go `func (t Torrents) GetIDs() []string`: the `InfoHash` of each torrent. -/
def Torrents.GetIDs (t : List Torrent) : List String :=
  t.map (fun x => x.InfoHash)

/-- Go `func (ac *TransmissionClient) ExecuteAddCommand(addCmd *Command) (TorrentAdded, error)`:
prefer the duplicate descriptor whenever its hash is non-empty. -/
def ExecuteAddCommand (env : Env) (addCmd : Command) :
    (TorrentAdded × Option GoError) × List Command :=
  match ExecuteCommand env addCmd with
  | ((_, some e), lg) => ((TorrentAdded.zero, some e), lg)
  | ((outCmd, none), lg) =>
    if outCmd.Arguments.torrentDuplicate.HashString ≠ "" then
      ((outCmd.Arguments.torrentDuplicate, none), lg)
    else
      ((outCmd.Arguments.torrentAdded, none), lg)

/-- Go `func (ac *TransmissionClient) Version() string`: the error from
`sendCommand` is discarded (`resp, _ := ...`) and only
`resp.Arguments.Version` is returned. -/
def Version (env : Env) : String :=
  match sendCommand env { Command.zero with Method := "session-get" } with
  | ((resp, _), _) => resp.Arguments.Version

/-- Go `type ApiClient struct` lives in a repository file that is not among
the given sources.  Modelled from the spec: the transport configured with
endpoint URL and basic-auth credentials (its session token is separate
per-call state, see the transport section). -/
structure ApiClient where
  url : String
  username : String
  password : String
deriving DecidableEq

/-- Modelled from the spec: `NewClient` (in the missing transport file)
builds the `ApiClient` from the constructor arguments. -/
def NewClient (url username password : String) : ApiClient :=
  ⟨url, username, password⟩

/-- Go `type TransmissionClient struct { apiclient *ApiClient }`. -/
structure TransmissionClient where
  apiclient : ApiClient
deriving DecidableEq

/-- Go `func New(url string, username string, password string) (*TransmissionClient, error)`:
build the client, probe with `session-get`, and return the (always non-nil)
client together with any probe error.  The Go `*TransmissionClient` is
modelled as `Option TransmissionClient` so that nil-ness is expressible. -/
def New (env : Env) (url username password : String) :
    (Option TransmissionClient × Option GoError) × List Command :=
  let apiclient := NewClient url username password
  let client : Option TransmissionClient := some ⟨apiclient⟩
  match sendCommand env { Command.zero with Method := "session-get" } with
  | ((_, some e), lg) => ((client, some e), lg)
  | ((_, none), lg) => ((client, none), lg)

/-! ## Torrent collection sorting

The `Sorting` enumeration and the `Torrents.SortX` comparator methods live in
a repository file that is not among the given sources; only the `switch` in
`GetTorrents` dispatching on them is source.  The comparators are therefore
modelled from the spec: order by the selected key, ascending, or descending
for the `Rev` modes. -/

/-- Modelled from the spec: the fixed enumeration of sort modes (key +
direction) named by the `GetTorrents` dispatch `switch` in the source. -/
inductive Sorting where
  | SortID
  | SortRevID
  | SortName
  | SortRevName
  | SortAge
  | SortRevAge
  | SortSize
  | SortRevSize
  | SortProgress
  | SortRevProgress
  | SortDownSpeed
  | SortRevDownSpeed
  | SortUpSpeed
  | SortRevUpSpeed
  | SortDownloaded
  | SortRevDownloaded
  | SortUploaded
  | SortRevUploaded
  | SortRatio
  | SortRevRatio
deriving DecidableEq

/-- Ascending comparison of torrents by a key. -/
def keyRel {κ : Type} [LinearOrder κ] (key : Torrent → κ) (a b : Torrent) : Prop :=
  key a ≤ key b

instance {κ : Type} [LinearOrder κ] (key : Torrent → κ) : DecidableRel (keyRel key) :=
  fun a b => inferInstanceAs (Decidable (key a ≤ key b))

/-- Modelled from the spec: sort ascending by `key`, or descending when
`reverse`.  The spec fixes no particular algorithm (ties resolve however the
underlying comparison sort resolves them), so insertion sort is used. -/
def sortWith {κ : Type} [LinearOrder κ] (key : Torrent → κ) (reverse : Bool)
    (ts : List Torrent) : List Torrent :=
  if reverse then ts.insertionSort (fun a b => keyRel key b a)
  else ts.insertionSort (keyRel key)

/-- Modelled from the spec: `Torrents.SortID`, ordering by daemon id. -/
def Torrents.SortID (ts : List Torrent) (reverse : Bool) : List Torrent :=
  sortWith (fun t => t.ID) reverse ts

/-- Modelled from the spec: `Torrents.SortName`, ordering by name. -/
def Torrents.SortName (ts : List Torrent) (reverse : Bool) : List Torrent :=
  sortWith (fun t => t.Name) reverse ts

/-- Modelled from the spec: `Torrents.SortAge`, ordering by added date. -/
def Torrents.SortAge (ts : List Torrent) (reverse : Bool) : List Torrent :=
  sortWith (fun t => t.AddedDate) reverse ts

/-- Modelled from the spec: `Torrents.SortSize`, ordering by total size. -/
def Torrents.SortSize (ts : List Torrent) (reverse : Bool) : List Torrent :=
  sortWith (fun t => t.TotalSize) reverse ts

/-- Modelled from the spec: `Torrents.SortProgress`, ordering by percent done. -/
def Torrents.SortProgress (ts : List Torrent) (reverse : Bool) : List Torrent :=
  sortWith (fun t => t.PercentDone) reverse ts

/-- Modelled from the spec: `Torrents.SortDownSpeed`, ordering by download rate. -/
def Torrents.SortDownSpeed (ts : List Torrent) (reverse : Bool) : List Torrent :=
  sortWith (fun t => t.RateDownload) reverse ts

/-- Modelled from the spec: `Torrents.SortUpSpeed`, ordering by upload rate. -/
def Torrents.SortUpSpeed (ts : List Torrent) (reverse : Bool) : List Torrent :=
  sortWith (fun t => t.RateUpload) reverse ts

/-- Modelled from the spec: `Torrents.SortDownloaded`, ordering by bytes downloaded. -/
def Torrents.SortDownloaded (ts : List Torrent) (reverse : Bool) : List Torrent :=
  sortWith (fun t => t.DownloadedEver) reverse ts

/-- Modelled from the spec: `Torrents.SortUploaded`, ordering by bytes uploaded. -/
def Torrents.SortUploaded (ts : List Torrent) (reverse : Bool) : List Torrent :=
  sortWith (fun t => t.UploadedEver) reverse ts

/-- Modelled from the spec: `Torrents.SortRatio`, ordering by upload ratio. -/
def Torrents.SortRatio (ts : List Torrent) (reverse : Bool) : List Torrent :=
  sortWith (fun t => t.UploadRatio) reverse ts

/-- The dispatch `switch` of `GetTorrents` (source): `SortID` returns the
collection untouched ("already sorted by ID"); every other mode calls the
matching comparator method. -/
def sortTorrents (st : Sorting) (torrents : List Torrent) : List Torrent :=
  match st with
  | .SortID => torrents
  | .SortRevID => Torrents.SortID torrents true
  | .SortName => Torrents.SortName torrents false
  | .SortRevName => Torrents.SortName torrents true
  | .SortAge => Torrents.SortAge torrents false
  | .SortRevAge => Torrents.SortAge torrents true
  | .SortSize => Torrents.SortSize torrents false
  | .SortRevSize => Torrents.SortSize torrents true
  | .SortProgress => Torrents.SortProgress torrents false
  | .SortRevProgress => Torrents.SortProgress torrents true
  | .SortDownSpeed => Torrents.SortDownSpeed torrents false
  | .SortRevDownSpeed => Torrents.SortDownSpeed torrents true
  | .SortUpSpeed => Torrents.SortUpSpeed torrents false
  | .SortRevUpSpeed => Torrents.SortUpSpeed torrents true
  | .SortDownloaded => Torrents.SortDownloaded torrents false
  | .SortRevDownloaded => Torrents.SortDownloaded torrents true
  | .SortUploaded => Torrents.SortUploaded torrents false
  | .SortRevUploaded => Torrents.SortUploaded torrents true
  | .SortRatio => Torrents.SortRatio torrents false
  | .SortRevRatio => Torrents.SortRatio torrents true

/-- Go `func (ac *TransmissionClient) GetTorrents() (Torrents, error)`:
fetch with `NewGetTorrentsCmd`, then arrange per the process-wide sort mode
(`sortType`, passed here explicitly as `st`). -/
def GetTorrents (st : Sorting) (env : Env) :
    (List Torrent × Option GoError) × List Command :=
  match ExecuteCommand env NewGetTorrentsCmd with
  | ((_, some e), lg) => (([], some e), lg)
  | ((out, none), lg) => ((sortTorrents st out.Arguments.Torrents, none), lg)

/-- Go `func (ac *TransmissionClient) StartAll() error`. -/
def StartAll (env : Env) (st : Sorting) : Option GoError × List Command :=
  match GetTorrents st env with
  | ((_, some e), lg) => (some e, lg)
  | ((torrents, none), lg) =>
    match sendCommand env
        { Command.zero with
          Method := "torrent-start"
          Arguments := { arguments.zero with Ids := Torrents.GetIDs torrents } } with
    | ((_, some e), lg2) => (some e, lg ++ lg2)
    | ((_, none), lg2) => (none, lg ++ lg2)

/-- Go `func (ac *TransmissionClient) StopAll() error`. -/
def StopAll (env : Env) (st : Sorting) : Option GoError × List Command :=
  match GetTorrents st env with
  | ((_, some e), lg) => (some e, lg)
  | ((torrents, none), lg) =>
    match sendCommand env
        { Command.zero with
          Method := "torrent-stop"
          Arguments := { arguments.zero with Ids := Torrents.GetIDs torrents } } with
    | ((_, some e), lg2) => (some e, lg ++ lg2)
    | ((_, none), lg2) => (none, lg ++ lg2)

/-- Go `func (ac *TransmissionClient) VerifyAll() error`. -/
def VerifyAll (env : Env) (st : Sorting) : Option GoError × List Command :=
  match GetTorrents st env with
  | ((_, some e), lg) => (some e, lg)
  | ((torrents, none), lg) =>
    match sendCommand env
        { Command.zero with
          Method := "torrent-verify"
          Arguments := { arguments.zero with Ids := Torrents.GetIDs torrents } } with
    | ((_, some e), lg2) => (some e, lg ++ lg2)
    | ((_, none), lg2) => (none, lg ++ lg2)

/-! ## base64 and the add-by-file / add-by-bytes constructors

`base64.StdEncoding.EncodeToString` is modelled concretely (RFC 4648
standard alphabet with `=` padding) over bytes as `Nat` values below 256;
`ioutil.ReadFile` is an external collaborator passed in as a function. -/

/-- The standard base64 alphabet. -/
def b64Alphabet : List Char :=
  "ABCDEFGHIJKLMNOPQRSTUVWXYZabcdefghijklmnopqrstuvwxyz0123456789+/".toList

/-- The alphabet character for a 6-bit value. -/
def b64Char (n : Nat) : Char := b64Alphabet.getD n '='

/-- Encode a byte list three bytes at a time, padding the final group. -/
def base64Chunks : List Nat → List Char
  | [] => []
  | [b0] => [b64Char (b0 / 4), b64Char (b0 % 4 * 16), '=', '=']
  | [b0, b1] =>
    [b64Char (b0 / 4), b64Char (b0 % 4 * 16 + b1 / 16), b64Char (b1 % 16 * 4), '=']
  | b0 :: b1 :: b2 :: rest =>
    b64Char (b0 / 4) :: b64Char (b0 % 4 * 16 + b1 / 16) ::
      b64Char (b1 % 16 * 4 + b2 / 64) :: b64Char (b2 % 64) :: base64Chunks rest

/-- Go `base64.StdEncoding.EncodeToString`. -/
def base64Encode (bs : List Nat) : String := String.mk (base64Chunks bs)

/-- Go `func NewAddCmdByFile(file string) (*Command, error)`: read the file
via the external collaborator (`ioutil.ReadFile`, passed as `readFile`),
propagating a read error unchanged, else base64-encode the bytes into
`metainfo`. -/
def NewAddCmdByFile (readFile : String → Except GoError (List Nat))
    (file : String) : Except GoError Command :=
  match readFile file with
  | .error e => .error e
  | .ok fileData =>
    .ok { NewAddCmd with
      Arguments := { NewAddCmd.Arguments with MetaInfo := base64Encode fileData } }

/-- Go `func NewAddCmdByBytes(b []byte) (*Command, error)` (never fails). -/
def NewAddCmdByBytes (b : List Nat) : Except GoError Command :=
  .ok { NewAddCmd with
    Arguments := { NewAddCmd.Arguments with MetaInfo := base64Encode b } }

/-- Exactly one of the `filename` / `metainfo` argument fields is populated
(non-zero). -/
def exactlyOnePopulated (cmd : Command) : Prop :=
  (cmd.Arguments.Filename ≠ "" ∧ cmd.Arguments.MetaInfo = "") ∨
    (cmd.Arguments.Filename = "" ∧ cmd.Arguments.MetaInfo ≠ "")

/-! ## The wire shape

A model of what Go `encoding/json` emits for the `Command` struct: an
ordered list of key/value pairs per object, one entry per struct field in
declaration order, where a field tagged `omitempty` is dropped when its
value is the Go empty value (false, 0, empty string, empty slice).  Struct
values are never "empty" in Go, so struct-typed fields without `omitempty`
behaviour are always emitted. -/

/-- A JSON value. -/
inductive Jval where
  | jstr (s : String)
  | jint (n : Int)
  | jnat (n : Nat)
  | jrat (q : Rat)
  | jbool (b : Bool)
  | jarr (xs : List Jval)
  | jobj (fields : List (String × Jval))

/-- Wire form of `TorrentAdded` (no `omitempty` tags). -/
def marshalTorrentAdded (ta : TorrentAdded) : Jval :=
  .jobj [("hashString", .jstr ta.HashString), ("id", .jint ta.ID),
    ("name", .jstr ta.Name)]

/-- Wire form of `File`. -/
def marshalFile (f : File) : Jval :=
  .jobj [("bytesCompleted", .jint f.Completed), ("length", .jint f.Size),
    ("name", .jstr f.Name)]

/-- Wire form of `peer`. -/
def marshalPeer (p : peer) : Jval :=
  .jobj [("address", .jstr p.Address), ("clientName", .jstr p.Name),
    ("port", .jint p.Port), ("rateToPeer", .jint p.RateToPeer),
    ("rateToClient", .jint p.RateToClient), ("progress", .jrat p.Progress),
    ("flagStr", .jstr p.Flags), ("isEncrypted", .jbool p.IsEncrypted),
    ("isUTP", .jbool p.IsUTP), ("isUploadingTo", .jbool p.IsUploadingTo),
    ("isIncoming", .jbool p.IsIncoming),
    ("isDownloadingFrom", .jbool p.IsDownloadingFrom),
    ("peerIsInterested", .jbool p.PeerIsInterested),
    ("peerIsChoked", .jbool p.PeerIsChoked),
    ("clientIsInterested", .jbool p.ClientIsInterested),
    ("clientIsChoked", .jbool p.ClientIsChoked)]

/-- Wire form of `tracker`. -/
def marshalTracker (t : tracker) : Jval :=
  .jobj [("announce", .jstr t.Announce), ("id", .jint t.Id),
    ("scrape", .jstr t.Scrape), ("tire", .jint t.Tire)]

/-- Wire form of `trackerStat`. -/
def marshalTrackerStat (t : trackerStat) : Jval :=
  .jobj [("announce", .jstr t.Announce), ("announceState", .jint t.AnnounceState),
    ("downloadCount", .jint t.DownloadCount), ("hasAnnounced", .jbool t.HasAnnounced),
    ("hasScraped", .jbool t.HasScraped), ("host", .jstr t.Host),
    ("id", .jnat t.ID), ("isBackup", .jbool t.IsBackup),
    ("lastAnnouncePeerCount", .jint t.LastAnnouncePeerCount),
    ("lastAnnounceResult", .jstr t.LastAnnounceResult),
    ("lastAnnounceStartTime", .jint t.LastAnnounceStartTime),
    ("lastAnnounceSucceeded", .jbool t.LastAnnounceSucceeded),
    ("lastAnnounceTime", .jint t.LastAnnounceTime),
    ("lastAnnounceTimedOut", .jbool t.LastAnnounceTimedOut),
    ("lastScrapeResult", .jstr t.LastScrapeResult),
    ("lastScrapeStartTime", .jint t.LastScrapeStartTime),
    ("lastScrapeSucceeded", .jbool t.LastScrapeSucceeded),
    ("lastScrapeTime", .jint t.LastScrapeTime),
    ("lastScrapeTimedOut", .jint t.LastScrapeTimedOut),
    ("leecherCount", .jint t.LeecherCount),
    ("nextAnnounceTime", .jint t.NextAnnounceTime),
    ("nextScrapeTime", .jint t.NextScrapeTime), ("scrape", .jstr t.Scrape),
    ("scrapeState", .jint t.ScrapeState), ("seederCount", .jint t.SeederCount),
    ("tier", .jint t.Tier)]

/-- Wire form of `cumulativeStats`. -/
def marshalCumulativeStats (s : cumulativeStats) : Jval :=
  .jobj [("downloadedBytes", .jnat s.DownloadedBytes),
    ("filesAdded", .jint s.FilesAdded), ("secondsActive", .jint s.SecondsActive),
    ("sessionCount", .jint s.SessionCount), ("uploadedBytes", .jnat s.UploadedBytes)]

/-- Wire form of `currentStats`. -/
def marshalCurrentStats (s : currentStats) : Jval :=
  .jobj [("downloadedBytes", .jnat s.DownloadedBytes),
    ("filesAdded", .jint s.FilesAdded), ("secondsActive", .jint s.SecondsActive),
    ("sessionCount", .jint s.SessionCount), ("uploadedBytes", .jnat s.UploadedBytes)]

/-- Wire form of `Torrent` (no `omitempty` tags: every field emitted). -/
def marshalTorrent (t : Torrent) : Jval :=
  .jobj [("id", .jint t.ID), ("name", .jstr t.Name), ("status", .jint t.Status),
    ("addedDate", .jint t.AddedDate), ("startDate", .jint t.StartDate),
    ("doneDate", .jint t.DoneDate), ("leftUntilDone", .jnat t.LeftUntilDone),
    ("sizeWhenDone", .jnat t.SizeWhenDone), ("eta", .jint t.Eta),
    ("uploadRatio", .jrat t.UploadRatio), ("rateDownload", .jnat t.RateDownload),
    ("rateUpload", .jnat t.RateUpload), ("downloadDir", .jstr t.DownloadDir),
    ("downloadedEver", .jnat t.DownloadedEver),
    ("uploadedEver", .jnat t.UploadedEver),
    ("haveUnchecked", .jnat t.HaveUnchecked), ("haveValid", .jnat t.HaveValid),
    ("isFinished", .jbool t.IsFinished), ("percentDone", .jrat t.PercentDone),
    ("seedRatioMode", .jint t.SeedRatioMode),
    ("files", .jarr (t.Files.map marshalFile)),
    ("peers", .jarr (t.Peers.map marshalPeer)),
    ("trackers", .jarr (t.Trackers.map marshalTracker)),
    ("trackerStats", .jarr (t.TrackerStats.map marshalTrackerStat)),
    ("error", .jint t.Error), ("errorString", .jstr t.ErrorString),
    ("hashString", .jstr t.InfoHash), ("totalSize", .jnat t.TotalSize),
    ("secondsDownloading", .jnat t.DownloadSeconds),
    ("secondsSeeding", .jnat t.SeedSeconds)]

/-- Wire form of the `arguments` bag.  The first seven fields carry
`omitempty` in the Go struct tags and are dropped at their zero value; the
remaining ten fields carry no `omitempty` and are always emitted. -/
def marshalArguments (a : arguments) : List (String × Jval) :=
  (if a.Fields = [] then [] else [("fields", Jval.jarr (a.Fields.map Jval.jstr))]) ++
  (if a.Torrents = [] then []
    else [("torrents", Jval.jarr (a.Torrents.map marshalTorrent))]) ++
  (if a.Ids = [] then [] else [("ids", Jval.jarr (a.Ids.map Jval.jstr))]) ++
  (if a.DeleteData = false then []
    else [("delete-local-data", Jval.jbool a.DeleteData)]) ++
  (if a.DownloadDir = "" then [] else [("download-dir", Jval.jstr a.DownloadDir)]) ++
  (if a.MetaInfo = "" then [] else [("metainfo", Jval.jstr a.MetaInfo)]) ++
  (if a.Filename = "" then [] else [("filename", Jval.jstr a.Filename)]) ++
  [("torrent-added", marshalTorrentAdded a.torrentAdded),
   ("torrent-duplicate", marshalTorrentAdded a.torrentDuplicate),
   ("activeTorrentCount", Jval.jint a.ActiveTorrentCount),
   ("cumulative-stats", marshalCumulativeStats a.CumulativeStats),
   ("current-stats", marshalCurrentStats a.CurrentStats),
   ("downloadSpeed", Jval.jnat a.DownloadSpeed),
   ("pausedTorrentCount", Jval.jint a.PausedTorrentCount),
   ("torrentCount", Jval.jint a.TorrentCount),
   ("uploadSpeed", Jval.jnat a.UploadSpeed),
   ("version", Jval.jstr a.Version)]

/-- Wire form of the `Command` envelope: `method` and `result` carry
`omitempty`; `arguments` also carries it, but a struct value is never empty
in Go, so the bag is always emitted. -/
def marshalCommand (c : Command) : List (String × Jval) :=
  (if c.Method = "" then [] else [("method", Jval.jstr c.Method)]) ++
  [("arguments", Jval.jobj (marshalArguments c.Arguments))] ++
  (if c.Result = "" then [] else [("result", Jval.jstr c.Result)])

/-! ## Session-id handshake transport

The `ApiClient.Post` implementation lives in a repository file that is not
among the given sources.  Modelled from the spec (§4.2): two token states
`NoToken` / `HaveToken` (here `Option String`); attach the current token and
send; on exactly HTTP 409 read the replacement token from the response
header, store it, and retry the same body exactly once; any other non-2xx
status is a terminal transport error; on success return the raw body. -/

/-- An HTTP response as the transport sees it: status code, the session-id
response header, and the raw body. -/
structure HttpResponse where
  StatusCode : Nat
  SessionHeader : String
  Body : String

/-- Modelled from the spec: a transport error carrying the final HTTP
status. -/
structure TransportError where
  status : Nat
deriving DecidableEq

/-- A 2xx (success) status. -/
def is2xx (s : Nat) : Bool := 200 ≤ s && s < 300

/-- The observable outcome of one `Post` call: the token state afterwards,
the result, and the `(token, body)` requests actually sent, in order. -/
structure PostOutcome where
  token : Option String
  result : Except TransportError String
  requests : List (Option String × String)

/-- Modelled from the spec: `ApiClient.Post` with the 409 handshake.
`respond` is the remote daemon: a response for each `(token, body)`
request. -/
def transportPost (tok : Option String) (body : String)
    (respond : Option String → String → HttpResponse) : PostOutcome :=
  let r1 := respond tok body
  if r1.StatusCode = 409 then
    let tok2 : Option String := some r1.SessionHeader
    let r2 := respond tok2 body
    if is2xx r2.StatusCode then
      ⟨tok2, .ok r2.Body, [(tok, body), (tok2, body)]⟩
    else
      ⟨tok2, .error ⟨r2.StatusCode⟩, [(tok, body), (tok2, body)]⟩
  else if is2xx r1.StatusCode then
    ⟨tok, .ok r1.Body, [(tok, body)]⟩
  else
    ⟨tok, .error ⟨r1.StatusCode⟩, [(tok, body)]⟩

/-! ## Per-mode ordering relation and reverse pairs (for the sort claims) -/

/-- The ordering relation each sort mode is meant to leave the collection
in: ascending in the selected key, descending for the `Rev` modes. -/
def modeRel (M : Sorting) : Torrent → Torrent → Prop :=
  match M with
  | .SortID => keyRel (fun t => t.ID)
  | .SortRevID => fun a b => keyRel (fun t => t.ID) b a
  | .SortName => keyRel (fun t => t.Name)
  | .SortRevName => fun a b => keyRel (fun t => t.Name) b a
  | .SortAge => keyRel (fun t => t.AddedDate)
  | .SortRevAge => fun a b => keyRel (fun t => t.AddedDate) b a
  | .SortSize => keyRel (fun t => t.TotalSize)
  | .SortRevSize => fun a b => keyRel (fun t => t.TotalSize) b a
  | .SortProgress => keyRel (fun t => t.PercentDone)
  | .SortRevProgress => fun a b => keyRel (fun t => t.PercentDone) b a
  | .SortDownSpeed => keyRel (fun t => t.RateDownload)
  | .SortRevDownSpeed => fun a b => keyRel (fun t => t.RateDownload) b a
  | .SortUpSpeed => keyRel (fun t => t.RateUpload)
  | .SortRevUpSpeed => fun a b => keyRel (fun t => t.RateUpload) b a
  | .SortDownloaded => keyRel (fun t => t.DownloadedEver)
  | .SortRevDownloaded => fun a b => keyRel (fun t => t.DownloadedEver) b a
  | .SortUploaded => keyRel (fun t => t.UploadedEver)
  | .SortRevUploaded => fun a b => keyRel (fun t => t.UploadedEver) b a
  | .SortRatio => keyRel (fun t => t.UploadRatio)
  | .SortRevRatio => fun a b => keyRel (fun t => t.UploadRatio) b a

/-- The reverse pair of each sort mode (same key, opposite direction). -/
def Sorting.reversePair : Sorting → Sorting
  | .SortID => .SortRevID
  | .SortRevID => .SortID
  | .SortName => .SortRevName
  | .SortRevName => .SortName
  | .SortAge => .SortRevAge
  | .SortRevAge => .SortAge
  | .SortSize => .SortRevSize
  | .SortRevSize => .SortSize
  | .SortProgress => .SortRevProgress
  | .SortRevProgress => .SortProgress
  | .SortDownSpeed => .SortRevDownSpeed
  | .SortRevDownSpeed => .SortDownSpeed
  | .SortUpSpeed => .SortRevUpSpeed
  | .SortRevUpSpeed => .SortUpSpeed
  | .SortDownloaded => .SortRevDownloaded
  | .SortRevDownloaded => .SortDownloaded
  | .SortUploaded => .SortRevUploaded
  | .SortRevUploaded => .SortUploaded
  | .SortRatio => .SortRevRatio
  | .SortRevRatio => .SortRatio

/-- Pairwise strict comparability in a mode's key: no two elements of the
collection share a key value. -/
def modeDistinct (M : Sorting) (ts : List Torrent) : Prop :=
  ts.Pairwise (fun a b => ¬(modeRel M a b ∧ modeRel M b a))

instance {κ : Type} [LinearOrder κ] (key : Torrent → κ) : IsTotal Torrent (keyRel key) :=
  ⟨fun a b => le_total (key a) (key b)⟩

instance {κ : Type} [LinearOrder κ] (key : Torrent → κ) : IsTrans Torrent (keyRel key) :=
  ⟨fun _ _ _ h1 h2 => le_trans h1 h2⟩

/-! ## Concrete fixtures used by the witnesses -/

/-- A sample torrent. -/
def tSampleA : Torrent :=
  { Torrent.zero with
    ID := 1
    Name := "alpha"
    AddedDate := 5
    InfoHash := "hashA"
    TotalSize := 100 }

/-- Another sample torrent, younger and larger-id than `tSampleA`. -/
def tSampleB : Torrent :=
  { Torrent.zero with
    ID := 2
    Name := "beta"
    AddedDate := 9
    InfoHash := "hashB"
    TotalSize := 50 }

/-- A daemon response carrying both a non-empty duplicate descriptor and a
non-empty added descriptor. -/
def respDup : Command :=
  { Command.zero with
    Arguments := { arguments.zero with
      torrentAdded := ⟨"addedhash", 3, "A"⟩
      torrentDuplicate := ⟨"duphash", 9, "D"⟩ } }

/-- A daemon response with an added descriptor and an empty duplicate. -/
def respNoDup : Command :=
  { Command.zero with
    Arguments := { arguments.zero with torrentAdded := ⟨"addedhash2", 4, "B"⟩ } }

/-- A daemon response with two torrents (delivered ascending by id). -/
def respTwoT : Command :=
  { Command.zero with
    Arguments := { arguments.zero with Torrents := [tSampleA, tSampleB] } }

/-- A codec/transport where everything succeeds and the daemon answers any
`torrent-get` with `respTwoT` and anything else with an empty envelope; the
marshalled body of a command is just its method name. -/
def envRoute : Env :=
  ⟨fun c => .ok c.Method, fun s => .ok s,
   fun s => if s = "torrent-get" then .ok respTwoT else .ok Command.zero⟩

/-- A transport whose POST always fails. -/
def envFail : Env :=
  ⟨fun c => .ok c.Method, fun _ => .error (GoError.msg "connection refused"),
   fun _ => .ok Command.zero⟩

/-- Everything succeeds; every response is `respDup`. -/
def envDup : Env :=
  ⟨fun c => .ok c.Method, fun s => .ok s, fun _ => .ok respDup⟩

/-- Everything succeeds; every response is `respNoDup`. -/
def envNoDup : Env :=
  ⟨fun c => .ok c.Method, fun s => .ok s, fun _ => .ok respNoDup⟩

/-- Everything succeeds; every response is an empty envelope (in particular
an empty torrent list). -/
def envEmptyT : Env :=
  ⟨fun c => .ok c.Method, fun s => .ok s, fun _ => .ok Command.zero⟩

/-- The listing succeeds (any `torrent-get` is answered with `respTwoT`)
but every other send fails at the transport. -/
def envSendFail : Env :=
  ⟨fun c => .ok c.Method,
   fun s => if s = "torrent-get" then .ok s else .error (GoError.msg "send failed"),
   fun s => if s = "torrent-get" then .ok respTwoT else .ok Command.zero⟩

/-- A file reader that returns the bytes of `"Man"`. -/
def readFileOk : String → Except GoError (List Nat) := fun _ => .ok [77, 97, 110]

/-- A file reader that fails. -/
def readFileErr : String → Except GoError (List Nat) :=
  fun _ => .error (GoError.msg "open sample.torrent: no such file or directory")

/-- The ten argument-bag keys that Go emits unconditionally (their struct
tags carry no `omitempty`). -/
def alwaysKeys : List String :=
  ["torrent-added", "torrent-duplicate", "activeTorrentCount",
   "cumulative-stats", "current-stats", "downloadSpeed",
   "pausedTorrentCount", "torrentCount", "uploadSpeed", "version"]

/-! ## Theorems

Generic facts about `sortWith`, then one theorem (plus witness or
counterexample) per claim. -/

theorem sortWith_perm {κ : Type} [LinearOrder κ] (key : Torrent → κ)
    (reverse : Bool) (ts : List Torrent) : (sortWith key reverse ts).Perm ts := by
  cases reverse
  · simpa [sortWith] using List.perm_insertionSort (keyRel key) ts
  · simpa [sortWith] using List.perm_insertionSort (fun a b => keyRel key b a) ts

theorem sortWith_sorted_asc {κ : Type} [LinearOrder κ] (key : Torrent → κ)
    (ts : List Torrent) : (sortWith key false ts).Pairwise (keyRel key) := by
  simpa [sortWith] using List.sorted_insertionSort (keyRel key) ts

theorem sortWith_sorted_desc {κ : Type} [LinearOrder κ] (key : Torrent → κ)
    (ts : List Torrent) :
    (sortWith key true ts).Pairwise (fun a b => keyRel key b a) := by
  haveI : IsTotal Torrent (fun a b => keyRel key b a) :=
    ⟨fun a b => le_total (key b) (key a)⟩
  haveI : IsTrans Torrent (fun a b => keyRel key b a) :=
    ⟨fun _ _ _ h1 h2 => le_trans h2 h1⟩
  simpa [sortWith] using List.sorted_insertionSort (fun a b => keyRel key b a) ts

theorem sorted_strict_unique_asc {κ : Type} [LinearOrder κ] (key : Torrent → κ)
    {l1 l2 : List Torrent} (hp : l1.Perm l2)
    (h1 : l1.Pairwise (fun a b => key a < key b))
    (h2 : l2.Pairwise (fun a b => key a < key b)) : l1 = l2 := by
  haveI : IsAntisymm Torrent (fun a b => key a < key b) :=
    ⟨fun _ _ h h' => absurd h' (lt_asymm h)⟩
  exact List.eq_of_perm_of_sorted hp h1 h2

theorem sorted_strict_unique_desc {κ : Type} [LinearOrder κ] (key : Torrent → κ)
    {l1 l2 : List Torrent} (hp : l1.Perm l2)
    (h1 : l1.Pairwise (fun a b => key b < key a))
    (h2 : l2.Pairwise (fun a b => key b < key a)) : l1 = l2 := by
  haveI : IsAntisymm Torrent (fun a b => key b < key a) :=
    ⟨fun _ _ h h' => absurd h' (lt_asymm h)⟩
  exact List.eq_of_perm_of_sorted hp h1 h2

theorem sortWith_true_of_sorted {κ : Type} [LinearOrder κ] (key : Torrent → κ)
    (l : List Torrent) (hs : l.Pairwise (keyRel key))
    (hd : l.Pairwise (fun a b => key a ≠ key b)) :
    sortWith key true l = l.reverse := by
  apply sorted_strict_unique_desc key
  · exact (sortWith_perm key true l).trans (List.reverse_perm l).symm
  · have h1 := sortWith_sorted_desc key l
    have h2 : (sortWith key true l).Pairwise (fun a b => key a ≠ key b) :=
      ((sortWith_perm key true l).pairwise_iff (fun h => h.symm)).mpr hd
    exact (h1.and h2).imp (fun h => lt_of_le_of_ne h.1 h.2.symm)
  · rw [List.pairwise_reverse]
    exact (hs.and hd).imp (fun h => lt_of_le_of_ne h.1 h.2)

theorem sortWith_false_of_sorted_desc {κ : Type} [LinearOrder κ]
    (key : Torrent → κ) (l : List Torrent)
    (hs : l.Pairwise (fun a b => keyRel key b a))
    (hd : l.Pairwise (fun a b => key a ≠ key b)) :
    sortWith key false l = l.reverse := by
  apply sorted_strict_unique_asc key
  · exact (sortWith_perm key false l).trans (List.reverse_perm l).symm
  · have h1 := sortWith_sorted_asc key l
    have h2 : (sortWith key false l).Pairwise (fun a b => key a ≠ key b) :=
      ((sortWith_perm key false l).pairwise_iff (fun h => h.symm)).mpr hd
    exact (h1.and h2).imp (fun h => lt_of_le_of_ne h.1 h.2)
  · rw [List.pairwise_reverse]
    exact (hs.and hd).imp (fun h => lt_of_le_of_ne h.1 h.2.symm)

theorem modeCase_fwd {κ : Type} [LinearOrder κ] (key : Torrent → κ)
    (T : List Torrent) :
    (sortWith key false T).Perm T
    ∧ (sortWith key false T).Pairwise (keyRel key)
    ∧ (T.Pairwise (fun a b => ¬(keyRel key a b ∧ keyRel key b a)) →
        sortWith key true (sortWith key false T) = (sortWith key false T).reverse) := by
  refine ⟨sortWith_perm key false T, sortWith_sorted_asc key T, fun hd => ?_⟩
  have hd' : T.Pairwise (fun a b => key a ≠ key b) :=
    hd.imp (fun h heq => h ⟨le_of_eq heq, le_of_eq heq.symm⟩)
  exact sortWith_true_of_sorted key _ (sortWith_sorted_asc key T)
    (((sortWith_perm key false T).pairwise_iff (fun h => h.symm)).mpr hd')

theorem modeCase_rev {κ : Type} [LinearOrder κ] (key : Torrent → κ)
    (T : List Torrent) :
    (sortWith key true T).Perm T
    ∧ (sortWith key true T).Pairwise (fun a b => keyRel key b a)
    ∧ (T.Pairwise (fun a b => ¬(keyRel key b a ∧ keyRel key a b)) →
        sortWith key false (sortWith key true T) = (sortWith key true T).reverse) := by
  refine ⟨sortWith_perm key true T, sortWith_sorted_desc key T, fun hd => ?_⟩
  have hd' : T.Pairwise (fun a b => key a ≠ key b) :=
    hd.imp (fun h heq => h ⟨le_of_eq heq.symm, le_of_eq heq⟩)
  exact sortWith_false_of_sorted_desc key _ (sortWith_sorted_desc key T)
    (((sortWith_perm key true T).pairwise_iff (fun h => h.symm)).mpr hd')

/-- Claim C5 (amended): for every fetched collection `T` and mode `M`,
`GetTorrents` returns a permutation of `T` ordered by `M`'s key (ascending,
or descending for the `Rev` modes; for the default `SortID` this relies on
the daemon's delivery order being ascending-by-id, since `SortID` performs
no re-sort and returns the collection exactly as delivered); and for
pairwise-distinct key values, applying `M` and then its reverse pair yields
the exact reverse ordering — for every `M` except `SortRevID`, whose
reverse pair `SortID` performs no re-sort (see the counterexample). -/
theorem getTorrents_sort_spec (M : Sorting) (T : List Torrent)
    (hid : M = Sorting.SortID → T.Pairwise (modeRel Sorting.SortID)) :
    (sortTorrents M T).Perm T
    ∧ (sortTorrents M T).Pairwise (modeRel M)
    ∧ (M = Sorting.SortID → sortTorrents M T = T)
    ∧ (modeDistinct M T → M ≠ Sorting.SortRevID →
        sortTorrents (Sorting.reversePair M) (sortTorrents M T) =
          (sortTorrents M T).reverse)
    ∧ (∀ env out lg st, ExecuteCommand env NewGetTorrentsCmd = ((out, none), lg) →
        GetTorrents st env = ((sortTorrents st out.Arguments.Torrents, none), lg)) := by
  have hlast : ∀ (env : Env) (out : Command) (lg : List Command) (st : Sorting),
      ExecuteCommand env NewGetTorrentsCmd = ((out, none), lg) →
      GetTorrents st env = ((sortTorrents st out.Arguments.Torrents, none), lg) := by
    intro env out lg st h
    simp [GetTorrents, h]
  cases M
  case SortID =>
    have hs := hid rfl
    refine ⟨List.Perm.refl T, hs, fun _ => rfl, fun hd _ => ?_, hlast⟩
    have hd' : T.Pairwise (fun a b => (fun t => t.ID) a ≠ (fun t => t.ID) b) :=
      hd.imp (fun h heq => h ⟨le_of_eq heq, le_of_eq heq.symm⟩)
    exact sortWith_true_of_sorted (fun t => t.ID) T hs hd'
  case SortRevID =>
    obtain ⟨p, s, _⟩ := modeCase_rev (fun t => t.ID) T
    exact ⟨p, s, fun h => absurd h (by decide), fun _ hne => absurd rfl hne, hlast⟩
  case SortName =>
    obtain ⟨p, s, r⟩ := modeCase_fwd (fun t => t.Name) T
    exact ⟨p, s, fun h => absurd h (by decide), fun hd _ => r hd, hlast⟩
  case SortRevName =>
    obtain ⟨p, s, r⟩ := modeCase_rev (fun t => t.Name) T
    exact ⟨p, s, fun h => absurd h (by decide), fun hd _ => r hd, hlast⟩
  case SortAge =>
    obtain ⟨p, s, r⟩ := modeCase_fwd (fun t => t.AddedDate) T
    exact ⟨p, s, fun h => absurd h (by decide), fun hd _ => r hd, hlast⟩
  case SortRevAge =>
    obtain ⟨p, s, r⟩ := modeCase_rev (fun t => t.AddedDate) T
    exact ⟨p, s, fun h => absurd h (by decide), fun hd _ => r hd, hlast⟩
  case SortSize =>
    obtain ⟨p, s, r⟩ := modeCase_fwd (fun t => t.TotalSize) T
    exact ⟨p, s, fun h => absurd h (by decide), fun hd _ => r hd, hlast⟩
  case SortRevSize =>
    obtain ⟨p, s, r⟩ := modeCase_rev (fun t => t.TotalSize) T
    exact ⟨p, s, fun h => absurd h (by decide), fun hd _ => r hd, hlast⟩
  case SortProgress =>
    obtain ⟨p, s, r⟩ := modeCase_fwd (fun t => t.PercentDone) T
    exact ⟨p, s, fun h => absurd h (by decide), fun hd _ => r hd, hlast⟩
  case SortRevProgress =>
    obtain ⟨p, s, r⟩ := modeCase_rev (fun t => t.PercentDone) T
    exact ⟨p, s, fun h => absurd h (by decide), fun hd _ => r hd, hlast⟩
  case SortDownSpeed =>
    obtain ⟨p, s, r⟩ := modeCase_fwd (fun t => t.RateDownload) T
    exact ⟨p, s, fun h => absurd h (by decide), fun hd _ => r hd, hlast⟩
  case SortRevDownSpeed =>
    obtain ⟨p, s, r⟩ := modeCase_rev (fun t => t.RateDownload) T
    exact ⟨p, s, fun h => absurd h (by decide), fun hd _ => r hd, hlast⟩
  case SortUpSpeed =>
    obtain ⟨p, s, r⟩ := modeCase_fwd (fun t => t.RateUpload) T
    exact ⟨p, s, fun h => absurd h (by decide), fun hd _ => r hd, hlast⟩
  case SortRevUpSpeed =>
    obtain ⟨p, s, r⟩ := modeCase_rev (fun t => t.RateUpload) T
    exact ⟨p, s, fun h => absurd h (by decide), fun hd _ => r hd, hlast⟩
  case SortDownloaded =>
    obtain ⟨p, s, r⟩ := modeCase_fwd (fun t => t.DownloadedEver) T
    exact ⟨p, s, fun h => absurd h (by decide), fun hd _ => r hd, hlast⟩
  case SortRevDownloaded =>
    obtain ⟨p, s, r⟩ := modeCase_rev (fun t => t.DownloadedEver) T
    exact ⟨p, s, fun h => absurd h (by decide), fun hd _ => r hd, hlast⟩
  case SortUploaded =>
    obtain ⟨p, s, r⟩ := modeCase_fwd (fun t => t.UploadedEver) T
    exact ⟨p, s, fun h => absurd h (by decide), fun hd _ => r hd, hlast⟩
  case SortRevUploaded =>
    obtain ⟨p, s, r⟩ := modeCase_rev (fun t => t.UploadedEver) T
    exact ⟨p, s, fun h => absurd h (by decide), fun hd _ => r hd, hlast⟩
  case SortRatio =>
    obtain ⟨p, s, r⟩ := modeCase_fwd (fun t => t.UploadRatio) T
    exact ⟨p, s, fun h => absurd h (by decide), fun hd _ => r hd, hlast⟩
  case SortRevRatio =>
    obtain ⟨p, s, r⟩ := modeCase_rev (fun t => t.UploadRatio) T
    exact ⟨p, s, fun h => absurd h (by decide), fun hd _ => r hd, hlast⟩

/-- Counterexample to claim C5 as stated: for `M = SortRevID` the reverse
pair is `SortID`, which performs *no* re-sort, so applying `SortRevID` and
then `SortID` to a strictly-ordered two-element collection does not yield
the reverse of the `SortRevID` ordering. -/
theorem getTorrents_sort_counterexample :
    modeDistinct Sorting.SortRevID [tSampleA, tSampleB]
    ∧ sortTorrents (Sorting.reversePair Sorting.SortRevID)
        (sortTorrents Sorting.SortRevID [tSampleA, tSampleB]) ≠
      (sortTorrents Sorting.SortRevID [tSampleA, tSampleB]).reverse := by
  constructor
  · simp only [modeDistinct, modeRel]
    decide
  · decide

/-- Witness for C5 at mode `SortAge` on a concrete two-element collection,
including the `GetTorrents` conjunct against the concrete `envRoute`. -/
theorem getTorrents_sort_witness :
    (sortTorrents Sorting.SortAge [tSampleB, tSampleA]).Perm [tSampleB, tSampleA]
    ∧ (sortTorrents Sorting.SortAge [tSampleB, tSampleA]).Pairwise
        (modeRel Sorting.SortAge)
    ∧ sortTorrents (Sorting.reversePair Sorting.SortAge)
        (sortTorrents Sorting.SortAge [tSampleB, tSampleA]) =
      (sortTorrents Sorting.SortAge [tSampleB, tSampleA]).reverse
    ∧ GetTorrents Sorting.SortAge envRoute =
        ((sortTorrents Sorting.SortAge respTwoT.Arguments.Torrents, none),
          [NewGetTorrentsCmd]) := by
  have h := getTorrents_sort_spec Sorting.SortAge [tSampleB, tSampleA]
    (fun hEq => absurd hEq (by decide))
  refine ⟨h.1, h.2.1, h.2.2.2.1 ?_ (by decide),
    h.2.2.2.2 envRoute respTwoT [NewGetTorrentsCmd] Sorting.SortAge rfl⟩
  simp only [modeDistinct, modeRel]
  decide

/-- Claim C1: for every successfully executed add response envelope,
`ExecuteAddCommand` returns the `torrent-duplicate` descriptor whenever its
`hashString` is non-empty (regardless of `torrent-added`), and the
`torrent-added` descriptor whenever the duplicate `hashString` is empty. -/
theorem executeAdd_duplicate_precedence (env : Env) (addCmd out : Command)
    (lg : List Command)
    (h : ExecuteCommand env addCmd = ((out, none), lg)) :
    (out.Arguments.torrentDuplicate.HashString ≠ "" →
      ExecuteAddCommand env addCmd = ((out.Arguments.torrentDuplicate, none), lg))
    ∧ (out.Arguments.torrentDuplicate.HashString = "" →
      ExecuteAddCommand env addCmd = ((out.Arguments.torrentAdded, none), lg)) := by
  constructor
  · intro hne
    simp [ExecuteAddCommand, h, hne]
  · intro heq
    simp [ExecuteAddCommand, h, heq]

/-- Witness for C1: against `envDup` (duplicate hash `"duphash"`, added hash
`"addedhash"`, both non-empty) the duplicate descriptor is returned; against
`envNoDup` (empty duplicate hash) the added descriptor is returned. -/
theorem executeAdd_duplicate_precedence_witness :
    ExecuteAddCommand envDup NewAddCmd =
      ((respDup.Arguments.torrentDuplicate, none), [NewAddCmd])
    ∧ ExecuteAddCommand envNoDup NewAddCmd =
      ((respNoDup.Arguments.torrentAdded, none), [NewAddCmd]) :=
  ⟨(executeAdd_duplicate_precedence envDup NewAddCmd respDup [NewAddCmd] rfl).1
      (by decide),
   (executeAdd_duplicate_precedence envNoDup NewAddCmd respNoDup [NewAddCmd] rfl).2
      (by decide)⟩

/-- Claim C6: when the id-scoped `torrent-get` succeeds with an empty
torrents list, `GetTorrent` returns the sentinel `ErrNoTorrent` together
with the zero-valued torrent; when the list is non-empty it returns its
first torrent with no error. -/
theorem getTorrent_notFound (env : Env) (id : String) (out : Command)
    (lg : List Command)
    (h : ExecuteCommand env (getTorrentCmd id) = ((out, none), lg)) :
    (out.Arguments.Torrents = [] →
      GetTorrent env id = ((Torrent.zero, some ErrNoTorrent), lg))
    ∧ (∀ t rest, out.Arguments.Torrents = t :: rest →
      GetTorrent env id = ((t, none), lg)) := by
  constructor
  · intro hempty
    simp [GetTorrent, h, hempty]
  · intro t rest hcons
    simp [GetTorrent, h, hcons]

/-- Witness for C6: `envEmptyT` answers with an empty list, yielding
`ErrNoTorrent` and the zero torrent; `envRoute` answers with
`[tSampleA, tSampleB]`, yielding `tSampleA`. -/
theorem getTorrent_notFound_witness :
    GetTorrent envEmptyT "missing-id" =
      ((Torrent.zero, some ErrNoTorrent), [getTorrentCmd "missing-id"])
    ∧ GetTorrent envRoute "hashA" = ((tSampleA, none), [getTorrentCmd "hashA"]) :=
  ⟨(getTorrent_notFound envEmptyT "missing-id" Command.zero
      [getTorrentCmd "missing-id"] rfl).1 rfl,
   (getTorrent_notFound envRoute "hashA" respTwoT [getTorrentCmd "hashA"] rfl).2
      tSampleA [tSampleB] rfl⟩

/-- Claim C10: `New` always hands back a non-nil client; when the initial
`session-get` probe fails, the caller receives both the constructed client
and the probe error. -/
theorem new_returns_client (env : Env) (url username password : String) :
    (New env url username password).1.1 =
      some (TransmissionClient.mk (NewClient url username password))
    ∧ (∀ out e lg,
        sendCommand env { Command.zero with Method := "session-get" } =
          ((out, some e), lg) →
        New env url username password =
          ((some (TransmissionClient.mk (NewClient url username password)),
            some e), lg)) := by
  constructor
  · rcases hsc : sendCommand env { Command.zero with Method := "session-get" } with
      ⟨⟨out, err⟩, lg⟩
    cases err <;> simp [New, hsc]
  · intro out e lg h
    simp [New, h]

/-- Witness for C10: against the always-failing transport `envFail`, `New`
still returns the client, together with the POST error. -/
theorem new_returns_client_witness :
    New envFail "http://localhost:9091" "user" "pass" =
      ((some (TransmissionClient.mk
          (NewClient "http://localhost:9091" "user" "pass")),
        some (GoError.msg "connection refused")),
       [{ Command.zero with Method := "session-get" }]) :=
  (new_returns_client envFail "http://localhost:9091" "user" "pass").2
    Command.zero (GoError.msg "connection refused")
    [{ Command.zero with Method := "session-get" }] rfl

theorem executeCommand_log (env : Env) (cmd : Command) :
    (ExecuteCommand env cmd).2 = [] ∨ (ExecuteCommand env cmd).2 = [cmd] := by
  unfold ExecuteCommand
  rcases h1 : env.marshal cmd with e | body
  · simp
  · rcases h2 : env.post body with e | output
    · simp [h2]
    · rcases h3 : env.unmarshal output with e | out <;> simp [h2, h3]

theorem getTorrent_log (env : Env) (id : String) :
    (GetTorrent env id).2 = [] ∨ (GetTorrent env id).2 = [getTorrentCmd id] := by
  unfold GetTorrent
  rcases h : ExecuteCommand env (getTorrentCmd id) with ⟨⟨out, err⟩, lg⟩
  have hl := executeCommand_log env (getTorrentCmd id)
  rw [h] at hl
  simp only at hl
  cases err
  · rcases hT : out.Arguments.Torrents with _ | ⟨t, rest⟩ <;> simpa [hT] using hl
  · simpa using hl

/-- Claim C8: `DeleteTorrent(id, withData)` performs the lookup-by-id first;
if the lookup fails it returns `("", error)` and never sends a
`torrent-remove` command; on success it sends `torrent-remove` with
`ids = [id]` and `delete-local-data = withData`, returning the name from the
pre-delete lookup. -/
theorem deleteTorrent_lookup_first (env : Env) (id : String) (withData : Bool) :
    (∀ e t lg, GetTorrent env id = ((t, some e), lg) →
      DeleteTorrent env id withData = (("", some e), lg)
      ∧ ∀ c ∈ lg, c.Method ≠ "torrent-remove")
    ∧ (∀ t lg out lg2, GetTorrent env id = ((t, none), lg) →
      ExecuteCommand env (newDelCmd id withData) = ((out, none), lg2) →
      DeleteTorrent env id withData = ((t.Name, none), lg ++ lg2))
    ∧ (newDelCmd id withData).Method = "torrent-remove"
    ∧ (newDelCmd id withData).Arguments.Ids = [id]
    ∧ (newDelCmd id withData).Arguments.DeleteData = withData := by
  refine ⟨?_, ?_, rfl, rfl, rfl⟩
  · intro e t lg h
    refine ⟨by simp [DeleteTorrent, h], ?_⟩
    intro c hc
    have hl := getTorrent_log env id
    rw [h] at hl
    simp only at hl
    rcases hl with hl | hl
    · rw [hl] at hc
      simp at hc
    · rw [hl] at hc
      simp at hc
      rw [hc]
      intro hbad
      simp [getTorrentCmd, NewGetTorrentsCmd, Command.zero] at hbad
  · intro t lg out lg2 h1 h2
    simp [DeleteTorrent, h1, h2]

/-- Witness for C8: against `envRoute` the delete succeeds and reports
`tSampleA`'s name after sending the lookup and then the remove; against
`envFail` the lookup fails and nothing named `torrent-remove` was sent. -/
theorem deleteTorrent_lookup_first_witness :
    DeleteTorrent envRoute "hashA" true =
      ((tSampleA.Name, none), [getTorrentCmd "hashA", newDelCmd "hashA" true])
    ∧ DeleteTorrent envFail "hashA" true =
      (("", some (GoError.msg "connection refused")), [getTorrentCmd "hashA"])
    ∧ (getTorrentCmd "hashA").Method ≠ "torrent-remove" := by
  refine ⟨?_, ?_, ?_⟩
  · exact (deleteTorrent_lookup_first envRoute "hashA" true).2.1 tSampleA
      [getTorrentCmd "hashA"] Command.zero [newDelCmd "hashA" true] rfl rfl
  · exact ((deleteTorrent_lookup_first envFail "hashA" true).1
      (GoError.msg "connection refused") Torrent.zero [getTorrentCmd "hashA"] rfl).1
  · have h := ((deleteTorrent_lookup_first envFail "hashA" true).1
      (GoError.msg "connection refused") Torrent.zero [getTorrentCmd "hashA"] rfl).2
    exact h (getTorrentCmd "hashA") (List.mem_singleton.mpr rfl)

/-- Counterexample to claim C3 as stated: `Version` is a fallible public
operation (its underlying `sendCommand` can fail), yet it discards the error
(`resp, _ := ac.sendCommand(cmd)`): against the always-failing transport
`envFail` the underlying send fails, but `Version` returns the zero value
`""` — its return type carries no error channel at all. -/
theorem version_swallows_error :
    (sendCommand envFail { Command.zero with Method := "session-get" }).1.2 =
      some (GoError.msg "connection refused")
    ∧ Version envFail = "" :=
  ⟨rfl, rfl⟩

/-- Claim C3 (amended): every fallible public operation of the client
*except `Version`* reports its error to the caller: whenever the underlying
marshal/post/unmarshal pipeline (or a nested operation) fails, the public
operation returns that error rather than silently returning data; the noted
exception `GetTorrent` on an empty result returns both `ErrNoTorrent` and
the zero-valued default.  (`Version` swallows its error — see the
counterexample.) -/
theorem errors_propagate (env : Env) :
    (∀ st out e lg, ExecuteCommand env NewGetTorrentsCmd = ((out, some e), lg) →
      GetTorrents st env = (([], some e), lg))
    ∧ (∀ id out e lg, ExecuteCommand env (getTorrentCmd id) = ((out, some e), lg) →
      GetTorrent env id = ((Torrent.zero, some e), lg))
    ∧ (∀ id out lg, ExecuteCommand env (getTorrentCmd id) = ((out, none), lg) →
      out.Arguments.Torrents = [] →
      GetTorrent env id = ((Torrent.zero, some ErrNoTorrent), lg))
    ∧ (∀ id wd e t lg, GetTorrent env id = ((t, some e), lg) →
      DeleteTorrent env id wd = (("", some e), lg))
    ∧ (∀ id wd t lg out e lg2, GetTorrent env id = ((t, none), lg) →
      ExecuteCommand env (newDelCmd id wd) = ((out, some e), lg2) →
      DeleteTorrent env id wd = (("", some e), lg ++ lg2))
    ∧ (∀ out e lg,
      ExecuteCommand env { Command.zero with Method := "session-stats" } =
        ((out, some e), lg) →
      GetStats env = ((none, some e), lg))
    ∧ (∀ m ids out e lg,
      sendCommand env
          { Command.zero with
            Method := m
            Arguments := { arguments.zero with Ids := ids } } = ((out, some e), lg) →
      sendSimpleCommand env m ids = ((out.Result, some e), lg))
    ∧ (∀ ids, StartTorrent env ids = sendSimpleCommand env "torrent-start" ids
      ∧ StopTorrent env ids = sendSimpleCommand env "torrent-stop" ids
      ∧ VerifyTorrent env ids = sendSimpleCommand env "torrent-verify" ids)
    ∧ (∀ st e lg ts, GetTorrents st env = ((ts, some e), lg) →
      StartAll env st = (some e, lg)
      ∧ StopAll env st = (some e, lg)
      ∧ VerifyAll env st = (some e, lg))
    ∧ (∀ st ts lg out e lg2, GetTorrents st env = ((ts, none), lg) →
      sendCommand env
          { Command.zero with
            Method := "torrent-start"
            Arguments := { arguments.zero with Ids := Torrents.GetIDs ts } } =
        ((out, some e), lg2) →
      StartAll env st = (some e, lg ++ lg2))
    ∧ (∀ st ts lg out e lg2, GetTorrents st env = ((ts, none), lg) →
      sendCommand env
          { Command.zero with
            Method := "torrent-stop"
            Arguments := { arguments.zero with Ids := Torrents.GetIDs ts } } =
        ((out, some e), lg2) →
      StopAll env st = (some e, lg ++ lg2))
    ∧ (∀ st ts lg out e lg2, GetTorrents st env = ((ts, none), lg) →
      sendCommand env
          { Command.zero with
            Method := "torrent-verify"
            Arguments := { arguments.zero with Ids := Torrents.GetIDs ts } } =
        ((out, some e), lg2) →
      VerifyAll env st = (some e, lg ++ lg2))
    ∧ (∀ addCmd out e lg, ExecuteCommand env addCmd = ((out, some e), lg) →
      ExecuteAddCommand env addCmd = ((TorrentAdded.zero, some e), lg))
    ∧ (∀ url u p out e lg,
      sendCommand env { Command.zero with Method := "session-get" } =
        ((out, some e), lg) →
      New env url u p =
        ((some (TransmissionClient.mk (NewClient url u p)), some e), lg)) := by
  refine ⟨?_, ?_, ?_, ?_, ?_, ?_, ?_, ?_, ?_, ?_, ?_, ?_, ?_, ?_⟩
  · intro st out e lg h
    simp [GetTorrents, h]
  · intro id out e lg h
    simp [GetTorrent, h]
  · intro id out lg h hempty
    simp [GetTorrent, h, hempty]
  · intro id wd e t lg h
    simp [DeleteTorrent, h]
  · intro id wd t lg out e lg2 h1 h2
    simp [DeleteTorrent, h1, h2]
  · intro out e lg h
    simp [GetStats, h]
  · intro m ids out e lg h
    simp [sendSimpleCommand, h]
  · intro ids
    exact ⟨rfl, rfl, rfl⟩
  · intro st e lg ts h
    refine ⟨?_, ?_, ?_⟩ <;> simp [StartAll, StopAll, VerifyAll, h]
  · intro st ts lg out e lg2 h1 h2
    simp [StartAll, h1, h2]
  · intro st ts lg out e lg2 h1 h2
    simp [StopAll, h1, h2]
  · intro st ts lg out e lg2 h1 h2
    simp [VerifyAll, h1, h2]
  · intro addCmd out e lg h
    simp [ExecuteAddCommand, h]
  · intro url u p out e lg h
    simp [New, h]

/-- Witness for C3 (amended) against the concrete failing transport
`envFail`, the empty-result `envEmptyT` for the noted exception, and
`envSendFail` for the `StopAll` / `VerifyAll` paths where the listing
succeeds but the follow-up send fails. -/
theorem errors_propagate_witness :
    GetTorrents Sorting.SortID envFail =
      (([], some (GoError.msg "connection refused")), [NewGetTorrentsCmd])
    ∧ GetTorrent envFail "x" =
      ((Torrent.zero, some (GoError.msg "connection refused")), [getTorrentCmd "x"])
    ∧ GetTorrent envEmptyT "x" =
      ((Torrent.zero, some ErrNoTorrent), [getTorrentCmd "x"])
    ∧ DeleteTorrent envFail "x" true =
      (("", some (GoError.msg "connection refused")), [getTorrentCmd "x"])
    ∧ GetStats envFail =
      ((none, some (GoError.msg "connection refused")),
        [{ Command.zero with Method := "session-stats" }])
    ∧ sendSimpleCommand envFail "torrent-start" ["x"] =
      (("", some (GoError.msg "connection refused")),
        [{ Command.zero with
            Method := "torrent-start"
            Arguments := { arguments.zero with Ids := ["x"] } }])
    ∧ StartAll envFail Sorting.SortID =
      (some (GoError.msg "connection refused"), [NewGetTorrentsCmd])
    ∧ StopAll envSendFail Sorting.SortID =
      (some (GoError.msg "send failed"),
        [NewGetTorrentsCmd,
         { Command.zero with
            Method := "torrent-stop"
            Arguments := { arguments.zero with
              Ids := Torrents.GetIDs [tSampleA, tSampleB] } }])
    ∧ VerifyAll envSendFail Sorting.SortID =
      (some (GoError.msg "send failed"),
        [NewGetTorrentsCmd,
         { Command.zero with
            Method := "torrent-verify"
            Arguments := { arguments.zero with
              Ids := Torrents.GetIDs [tSampleA, tSampleB] } }])
    ∧ ExecuteAddCommand envFail NewAddCmd =
      ((TorrentAdded.zero, some (GoError.msg "connection refused")), [NewAddCmd]) := by
  obtain ⟨cList, cGet, cGetEmpty, cDelLookup, cDelSend, cStats, cSimple, cWrap,
    cAllList, cStartSend, cStopSend, cVerifySend, cAdd, cNew⟩ :=
    errors_propagate envFail
  obtain ⟨eList, eGet, eGetEmpty, eDelLookup, eDelSend, eStats, eSimple, eWrap,
    eAllList, eStartSend, eStopSend, eVerifySend, eAdd, eNew⟩ :=
    errors_propagate envEmptyT
  obtain ⟨sList, sGet, sGetEmpty, sDelLookup, sDelSend, sStats, sSimple, sWrap,
    sAllList, sStartSend, sStopSend, sVerifySend, sAdd, sNew⟩ :=
    errors_propagate envSendFail
  refine ⟨cList Sorting.SortID Command.zero (GoError.msg "connection refused")
      [NewGetTorrentsCmd] rfl,
    cGet "x" Command.zero (GoError.msg "connection refused") [getTorrentCmd "x"] rfl,
    eGetEmpty "x" Command.zero [getTorrentCmd "x"] rfl rfl,
    cDelLookup "x" true (GoError.msg "connection refused") Torrent.zero
      [getTorrentCmd "x"]
      (cGet "x" Command.zero (GoError.msg "connection refused")
        [getTorrentCmd "x"] rfl),
    cStats Command.zero (GoError.msg "connection refused")
      [{ Command.zero with Method := "session-stats" }] rfl,
    cSimple "torrent-start" ["x"] Command.zero (GoError.msg "connection refused")
      [{ Command.zero with
          Method := "torrent-start"
          Arguments := { arguments.zero with Ids := ["x"] } }] rfl,
    (cAllList Sorting.SortID (GoError.msg "connection refused")
      [NewGetTorrentsCmd] [] rfl).1,
    sStopSend Sorting.SortID [tSampleA, tSampleB] [NewGetTorrentsCmd]
      Command.zero (GoError.msg "send failed")
      [{ Command.zero with
          Method := "torrent-stop"
          Arguments := { arguments.zero with
            Ids := Torrents.GetIDs [tSampleA, tSampleB] } }] rfl rfl,
    sVerifySend Sorting.SortID [tSampleA, tSampleB] [NewGetTorrentsCmd]
      Command.zero (GoError.msg "send failed")
      [{ Command.zero with
          Method := "torrent-verify"
          Arguments := { arguments.zero with
            Ids := Torrents.GetIDs [tSampleA, tSampleB] } }] rfl rfl,
    cAdd NewAddCmd Command.zero (GoError.msg "connection refused") [NewAddCmd] rfl⟩

/-- Claim C2 (spec-modelled): if `Post`'s first response is HTTP 409, the
token from the response header is stored and the same body is retried
exactly once — the request log is exactly the two `(token, body)` pairs,
never a third; if the retry is 2xx the retry body is returned, and if the
retry is any non-2xx status the call fails with a `TransportError`. -/
theorem post_handshake (tok : Option String) (body : String)
    (respond : Option String → String → HttpResponse)
    (h409 : (respond tok body).StatusCode = 409) :
    (transportPost tok body respond).requests =
      [(tok, body), (some (respond tok body).SessionHeader, body)]
    ∧ (transportPost tok body respond).token =
      some (respond tok body).SessionHeader
    ∧ (is2xx (respond (some (respond tok body).SessionHeader) body).StatusCode = true →
      (transportPost tok body respond).result =
        .ok (respond (some (respond tok body).SessionHeader) body).Body)
    ∧ (is2xx (respond (some (respond tok body).SessionHeader) body).StatusCode = false →
      (transportPost tok body respond).result =
        .error ⟨(respond (some (respond tok body).SessionHeader) body).StatusCode⟩) := by
  refine ⟨?_, ?_, ?_, ?_⟩
  · simp only [transportPost, h409, if_true]
    split <;> rfl
  · simp only [transportPost, h409, if_true]
    split <;> rfl
  · intro h2
    simp [transportPost, h409, h2]
  · intro h2
    simp [transportPost, h409, h2]

/-- Witness for C2 against a concrete scripted daemon: with no token the
daemon answers 409 carrying header token `"tok123"`; with a token it
answers 200 with body `"payload"` — so `Post` from `NoToken` sends exactly
twice, stores the token, and returns `"payload"`.  A second daemon whose
second answer is 500 yields a `TransportError` after exactly two sends. -/
theorem post_handshake_witness :
    (transportPost none "req"
        (fun t _ => match t with
          | none => ⟨409, "tok123", ""⟩
          | some _ => ⟨200, "", "payload"⟩)).requests =
      [(none, "req"), (some "tok123", "req")]
    ∧ (transportPost none "req"
        (fun t _ => match t with
          | none => ⟨409, "tok123", ""⟩
          | some _ => ⟨200, "", "payload"⟩)).token = some "tok123"
    ∧ (transportPost none "req"
        (fun t _ => match t with
          | none => ⟨409, "tok123", ""⟩
          | some _ => ⟨200, "", "payload"⟩)).result = .ok "payload"
    ∧ (transportPost none "req"
        (fun t _ => match t with
          | none => ⟨409, "tok123", ""⟩
          | some _ => ⟨500, "", "oops"⟩)).result = .error ⟨500⟩
    ∧ (transportPost none "req"
        (fun t _ => match t with
          | none => ⟨409, "tok123", ""⟩
          | some _ => ⟨500, "", "oops"⟩)).requests =
      [(none, "req"), (some "tok123", "req")] := by
  have hOk := post_handshake none "req"
    (fun t _ => match t with
      | none => ⟨409, "tok123", ""⟩
      | some _ => ⟨200, "", "payload"⟩) rfl
  have hBad := post_handshake none "req"
    (fun t _ => match t with
      | none => ⟨409, "tok123", ""⟩
      | some _ => ⟨500, "", "oops"⟩) rfl
  exact ⟨hOk.1, hOk.2.1, hOk.2.2.1 (by decide), hBad.2.2.2 (by decide), hBad.1⟩

theorem base64Chunks_ne_nil (b : Nat) (rest : List Nat) :
    base64Chunks (b :: rest) ≠ [] := by
  match rest with
  | [] => simp [base64Chunks]
  | [b1] => simp [base64Chunks]
  | b1 :: b2 :: r => simp [base64Chunks]

theorem base64Encode_ne_empty {bs : List Nat} (h : bs ≠ []) :
    base64Encode bs ≠ "" := by
  intro heq
  have hdata : base64Chunks bs = [] := congrArg String.data heq
  match bs, h with
  | b :: rest, _ => exact base64Chunks_ne_nil b rest hdata

/-- Claim C7: every add-command constructor produces a `"torrent-add"`
envelope with exactly one of `filename`/`metainfo` populated; the file and
byte variants transmit the base64 encoding of the bytes; and a failing file
read surfaces as the collaborator's error with no command. -/
theorem addCmd_constructors :
    (∀ url, (NewAddCmdByURL url).Method = "torrent-add"
      ∧ (NewAddCmdByURL url).Arguments.Filename = url
      ∧ (NewAddCmdByURL url).Arguments.MetaInfo = ""
      ∧ (url ≠ "" → exactlyOnePopulated (NewAddCmdByURL url)))
    ∧ (∀ fn, (NewAddCmdByFilename fn).Method = "torrent-add"
      ∧ (NewAddCmdByFilename fn).Arguments.Filename = fn
      ∧ (NewAddCmdByFilename fn).Arguments.MetaInfo = ""
      ∧ (fn ≠ "" → exactlyOnePopulated (NewAddCmdByFilename fn)))
    ∧ (∀ readFile file data, readFile file = .ok data →
      ∃ cmd, NewAddCmdByFile readFile file = .ok cmd)
    ∧ (∀ readFile file data cmd, readFile file = .ok data →
      NewAddCmdByFile readFile file = .ok cmd →
      cmd.Method = "torrent-add"
      ∧ cmd.Arguments.MetaInfo = base64Encode data
      ∧ cmd.Arguments.Filename = ""
      ∧ (data ≠ [] → exactlyOnePopulated cmd))
    ∧ (∀ readFile file e, readFile file = .error e →
      NewAddCmdByFile readFile file = .error e)
    ∧ (∀ b cmd, NewAddCmdByBytes b = .ok cmd →
      cmd.Method = "torrent-add"
      ∧ cmd.Arguments.MetaInfo = base64Encode b
      ∧ cmd.Arguments.Filename = ""
      ∧ (b ≠ [] → exactlyOnePopulated cmd)) := by
  refine ⟨?_, ?_, ?_, ?_, ?_, ?_⟩
  · intro url
    exact ⟨rfl, rfl, rfl, fun h => Or.inl ⟨h, rfl⟩⟩
  · intro fn
    exact ⟨rfl, rfl, rfl, fun h => Or.inl ⟨h, rfl⟩⟩
  · intro readFile file data h
    exact ⟨{ NewAddCmd with
        Arguments := { NewAddCmd.Arguments with MetaInfo := base64Encode data } },
      by simp [NewAddCmdByFile, h]⟩
  · intro readFile file data cmd h1 h2
    simp [NewAddCmdByFile, h1] at h2
    subst h2
    exact ⟨rfl, rfl, rfl, fun hd => Or.inr ⟨rfl, base64Encode_ne_empty hd⟩⟩
  · intro readFile file e h
    simp [NewAddCmdByFile, h]
  · intro b cmd h
    simp [NewAddCmdByBytes] at h
    subst h
    exact ⟨rfl, rfl, rfl, fun hb => Or.inr ⟨rfl, base64Encode_ne_empty hb⟩⟩

/-- Witness for C7 at concrete inputs: the URL variant with a magnet link,
the file variant against a reader returning the bytes of `"Man"` (whose
standard base64 encoding is `"TWFu"`), and the failing reader. -/
theorem addCmd_constructors_witness :
    (NewAddCmdByURL "magnet:?xt=abc").Method = "torrent-add"
    ∧ exactlyOnePopulated (NewAddCmdByURL "magnet:?xt=abc")
    ∧ (∀ cmd, NewAddCmdByFile readFileOk "a.torrent" = .ok cmd →
        cmd.Arguments.MetaInfo = "TWFu" ∧ exactlyOnePopulated cmd)
    ∧ NewAddCmdByFile readFileErr "a.torrent" =
      .error (GoError.msg "open sample.torrent: no such file or directory") := by
  refine ⟨(addCmd_constructors.1 "magnet:?xt=abc").1,
    (addCmd_constructors.1 "magnet:?xt=abc").2.2.2 (by decide), ?_, ?_⟩
  · intro cmd hcmd
    have h := addCmd_constructors.2.2.2.1 readFileOk "a.torrent" [77, 97, 110]
      cmd rfl hcmd
    refine ⟨?_, h.2.2.2 (by decide)⟩
    rw [h.2.1]
    decide
  · exact addCmd_constructors.2.2.2.2.1 readFileErr "a.torrent"
      (GoError.msg "open sample.torrent: no such file or directory") rfl

/-- Counterexample to claim C4 as stated: the envelope built by the typed
constructor `NewAddCmdByURL` holds the zero `torrent-added` descriptor in
its argument bag, yet the encoded output still contains the
`torrent-added` key — the Go field carries no `omitempty` tag, so this
zero-valued field is *not* omitted from the wire form (likewise the other
nine result/stat fields). -/
theorem marshal_omitempty_counterexample :
    (NewAddCmdByURL "magnet:?xt=x").Arguments.torrentAdded = TorrentAdded.zero
    ∧ "torrent-added" ∈
      (marshalArguments (NewAddCmdByURL "magnet:?xt=x").Arguments).map Prod.fst := by
  exact ⟨rfl, by decide⟩

/-- Claim C4 (amended): for every envelope built by the typed constructors,
each `omitempty`-tagged argument field (`fields`, `torrents`, `ids`,
`delete-local-data`, `download-dir`, `metainfo`, `filename`) at its zero
value is absent from the encoded output and each populated one is present;
the ten result/stat keys without `omitempty` (`alwaysKeys`) are always
emitted; at the envelope level `method` is present and the zero `result`
is omitted. -/
theorem marshal_omitempty_amended :
    (marshalArguments NewGetTorrentsCmd.Arguments).map Prod.fst =
      "fields" :: alwaysKeys
    ∧ (∀ url, url ≠ "" →
      (marshalArguments (NewAddCmdByURL url).Arguments).map Prod.fst =
        "filename" :: alwaysKeys)
    ∧ (∀ fn, fn ≠ "" →
      (marshalArguments (NewAddCmdByFilename fn).Arguments).map Prod.fst =
        "filename" :: alwaysKeys)
    ∧ (∀ b cmd, b ≠ [] → NewAddCmdByBytes b = .ok cmd →
      (marshalArguments cmd.Arguments).map Prod.fst = "metainfo" :: alwaysKeys)
    ∧ (∀ id wd, (marshalArguments (newDelCmd id wd).Arguments).map Prod.fst =
      if wd then "ids" :: "delete-local-data" :: alwaysKeys
      else "ids" :: alwaysKeys)
    ∧ (∀ url, url ≠ "" →
      (marshalCommand (NewAddCmdByURL url)).map Prod.fst = ["method", "arguments"]) := by
  refine ⟨by decide, ?_, ?_, ?_, ?_, ?_⟩
  · intro url h
    simp [marshalArguments, NewAddCmdByURL, NewAddCmd, Command.zero, arguments.zero,
      TorrentAdded.zero, cumulativeStats.zero, currentStats.zero, alwaysKeys, h]
  · intro fn h
    simp [marshalArguments, NewAddCmdByFilename, NewAddCmd, Command.zero,
      arguments.zero, TorrentAdded.zero, cumulativeStats.zero, currentStats.zero,
      alwaysKeys, h]
  · intro b cmd hb hcmd
    simp [NewAddCmdByBytes] at hcmd
    subst hcmd
    have hne := base64Encode_ne_empty hb
    simp [marshalArguments, NewAddCmd, Command.zero, arguments.zero,
      TorrentAdded.zero, cumulativeStats.zero, currentStats.zero, alwaysKeys, hne]
  · intro id wd
    cases wd <;>
      simp [marshalArguments, newDelCmd, Command.zero, arguments.zero,
        TorrentAdded.zero, cumulativeStats.zero, currentStats.zero, alwaysKeys]
  · intro url h
    simp [marshalCommand, marshalArguments, NewAddCmdByURL, NewAddCmd,
      Command.zero, arguments.zero, h]

/-- Witness for C4 (amended) at concrete inputs. -/
theorem marshal_omitempty_witness :
    (marshalArguments (NewAddCmdByURL "magnet:?xt=abc").Arguments).map Prod.fst =
      "filename" :: alwaysKeys
    ∧ (marshalArguments (newDelCmd "id1" true).Arguments).map Prod.fst =
      "ids" :: "delete-local-data" :: alwaysKeys
    ∧ (marshalCommand (NewAddCmdByURL "magnet:?xt=abc")).map Prod.fst =
      ["method", "arguments"] := by
  refine ⟨marshal_omitempty_amended.2.1 "magnet:?xt=abc" (by decide), ?_,
    marshal_omitempty_amended.2.2.2.2.2 "magnet:?xt=abc" (by decide)⟩
  have h := marshal_omitempty_amended.2.2.2.2.1 "id1" true
  simpa using h

/-! ## Claim C9 -/

/-- Claim C9: `Status.String` is total: on the seven enumerated values
`TrStopped`..`TrSeeding` (`0`..`6`) it returns one of the seven enumerated
names, and on every value outside that range it returns `"unknown"`;
`IsStarted` is true exactly for `TrChecking`, `TrDownloadPending`,
`TrDownloading`, `TrSeedPending`, `TrSeeding`. -/
theorem status_string_total (ts : Int) :
    (0 ≤ ts ∧ ts ≤ 6 →
      statusString ts ∈ (["Stopped", "Check waiting", "Checking",
        "Download waiting", "Downloading", "Seed waiting", "Seeding"] : List String))
    ∧ (ts < 0 ∨ 6 < ts → statusString ts = "unknown")
    ∧ (Status.IsStarted ts = true ↔
        (ts = TrChecking ∨ ts = TrDownloadPending ∨ ts = TrDownloading ∨
         ts = TrSeedPending ∨ ts = TrSeeding)) := by
  refine ⟨?_, ?_, ?_⟩
  · intro h
    obtain ⟨h0, h6⟩ := h
    interval_cases ts <;> simp [statusString, TrStopped, TrCheckPending, TrChecking,
      TrDownloadPending, TrDownloading, TrSeedPending, TrSeeding]
  · intro h
    simp only [statusString, TrStopped, TrCheckPending, TrChecking,
      TrDownloadPending, TrDownloading, TrSeedPending, TrSeeding]
    split_ifs <;> first | rfl | (exfalso; omega)
  · simp [Status.IsStarted, TrChecking, TrDownloadPending, TrDownloading,
      TrSeedPending, TrSeeding, or_assoc]

/-- Witness for C9 at concrete inputs: `4` is in range and started, `9` is out
of range, `0` is stopped. -/
theorem status_string_total_witness :
    statusString 4 ∈ (["Stopped", "Check waiting", "Checking",
      "Download waiting", "Downloading", "Seed waiting", "Seeding"] : List String)
    ∧ statusString 9 = "unknown"
    ∧ Status.IsStarted 4 = true
    ∧ Status.IsStarted 0 ≠ true := by
  refine ⟨(status_string_total 4).1 (by decide), (status_string_total 9).2.1 (by decide),
    ((status_string_total 4).2.2).mpr (by decide), ?_⟩
  intro h
  have := ((status_string_total 0).2.2).mp h
  simp [TrChecking, TrDownloadPending, TrDownloading, TrSeedPending, TrSeeding] at this

